import Mathlib

/-!
# Verification of the gridlabd-weather TMY3 reader (`src/source/tmy3.py`)

Shallow embedding of the module's data-acquisition layer (`get_data`,
`get_index`), its parsing layer (`TMY3.__init__` with its `get_date` /
`get_time` converters and the pandas `read_table` calls), its static unit
dictionary, and the configuration bootstrap (`load_config` and the
module-level `try`/`except`).

Python strings are modelled as `List Char`; `str.split(sep)` is `pySplit`,
`str.strip()` is `pyStrip`, `int(...)` on digit strings is `parseNat?`.
Calendar values follow the proleptic Gregorian rules used by Python's
`datetime` (years 1..9999, leap-year rule, per-month lengths).
-/

/-- `str.split(sep)` for a single-character separator, Python semantics:
splitting the empty string yields `[[]]` (Python: `"".split(c) == ['']`). -/
def pySplit (sep : Char) : List Char → List (List Char)
  | [] => [[]]
  | c :: rest =>
      match pySplit sep rest with
      | [] => if c = sep then [[], []] else [[c]]
      | seg :: segs => if c = sep then [] :: seg :: segs else (c :: seg) :: segs

/-- Characters removed by Python's `str.strip()` (ASCII whitespace). -/
def isPySpace (c : Char) : Bool :=
  c = ' ' || c = '\t' || c = '\n' || c = '\r' || c = '\x0B' || c = '\x0C'

/-- Trailing-whitespace removal, as done by `str.strip()` on the right end. -/
def pyStripRight (l : List Char) : List Char :=
  ((l.reverse).dropWhile isPySpace).reverse

/-- Leading-whitespace removal, as done by `str.strip()` on the left end. -/
def pyStripLeft (l : List Char) : List Char :=
  l.dropWhile isPySpace

/-- Python `str.strip()`. -/
def pyStrip (l : List Char) : List Char :=
  pyStripLeft (pyStripRight l)

/-- Python `int(...)` restricted to non-empty all-digit strings (the only
form occurring in TMY3 date and time cells); anything else raises
`ValueError`, modelled as `none`. -/
def parseNat? (l : List Char) : Option Nat :=
  if l ≠ [] ∧ l.all Char.isDigit then
    some (l.foldl (fun a c => a * 10 + (c.toNat - 48)) 0)
  else
    none

/-- Gregorian leap-year rule used by Python `datetime`. -/
def isLeap (y : Nat) : Bool :=
  y % 4 == 0 && (y % 100 != 0 || y % 400 == 0)

/-- Length of month `m` (1..12); 0 for out-of-range months. -/
def monthLen (leap : Bool) : Nat → Nat
  | 1 => 31
  | 2 => if leap then 29 else 28
  | 3 => 31
  | 4 => 30
  | 5 => 31
  | 6 => 30
  | 7 => 31
  | 8 => 31
  | 9 => 30
  | 10 => 31
  | 11 => 30
  | 12 => 31
  | _ => 0

/-- A `datetime.date` value. -/
structure SimpleDate where
  year : Nat
  month : Nat
  day : Nat
deriving DecidableEq, Repr

/-- A `datetime.time` value at minute granularity. -/
structure SimpleTime where
  hour : Nat
  minute : Nat
deriving DecidableEq, Repr

/-- The validity check `datetime.date(y, m, d)` performs. -/
def validDate (y m d : Nat) : Bool :=
  1 ≤ y && y ≤ 9999 && 1 ≤ m && m ≤ 12 && 1 ≤ d && d ≤ monthLen (isLeap y) m

/-- `datetime.datetime.strptime(cell, "%m/%d/%Y").date()`: split on `/`,
require three all-digit components forming a valid calendar date. -/
def parseDateCell (cell : List Char) : Option SimpleDate :=
  match pySplit '/' cell with
  | [ms, ds, ys] =>
      match parseNat? ms, parseNat? ds, parseNat? ys with
      | some m, some d, some y =>
          if validDate y m d then some ⟨y, m, d⟩ else none
      | _, _, _ => none
  | _ => none

/-- `date.replace(year=y)`: swap the year, re-validating the day
(raises `ValueError`, i.e. `none`, if the day is invalid in the new year). -/
def dateReplaceYear (dt : SimpleDate) (y : Nat) : Option SimpleDate :=
  if validDate y dt.month dt.day then some ⟨y, dt.month, dt.day⟩ else none

/-- The `get_date` converter of `TMY3.__init__` (tmy3.py lines 164-168):
`if coerce_year:` is Python truthiness, so `0` behaves like `None`. -/
def get_date (coerce_year : Option Nat) (cell : List Char) : Option SimpleDate :=
  match coerce_year with
  | some y =>
      if y ≠ 0 then (parseDateCell cell).bind (fun dt => dateReplaceYear dt y)
      else parseDateCell cell
  | none => parseDateCell cell

/-- The `get_time` converter of `TMY3.__init__` (tmy3.py lines 169-170):
`datetime.time(hour=int(dt.split(':')[0])-1)`. The minute component is
discarded (`datetime.time` defaults it to 0); `time` validates
`0 <= hour <= 23`, so only hour-ending labels 1..24 succeed. -/
def get_time (cell : List Char) : Option SimpleTime :=
  match pySplit ':' cell with
  | [] => none
  | hs :: _ =>
      match parseNat? hs with
      | some h => if 1 ≤ h ∧ h ≤ 24 then some ⟨h - 1, 0⟩ else none
      | none => none

/-- Python exceptions surfaced by tmy3.py: `NameError` (`load_config` body),
`OSError(errno, msg, path)` (`get_data` fetch failure, missing file), and the
`ValueError` raised by failing `datetime`/numeric conversions inside pandas
converters. -/
inductive PyExc where
  | nameError (missing : String)
  | oserror (errno : Nat) (msg : String) (path : String)
  | valueError
  | emptyData
deriving DecidableEq, Repr

/-- The station-header dataframe of the first `pandas.read_table` call
(tmy3.py lines 156-161): one row, `names=` the seven column labels.
Fields hold the raw cell text (pandas infers dtypes and never validates);
`none` models a NaN produced for a missing trailing column. -/
structure StationInfo where
  station : Option (List Char)
  name : Option (List Char)
  state : Option (List Char)
  tzoffset : Option (List Char)
  latitude : Option (List Char)
  longitude : Option (List Char)
  elevation : Option (List Char)
deriving DecidableEq, Repr

/-- Column `i` (0..6) of the single header row, under pandas' rules for
`header=None, names=[7 labels]`: with at least 7 fields the surplus
leftmost fields become the row index so the labels take the last 7 fields;
with fewer than 7 fields the missing trailing labels are NaN. -/
def headerField (fs : List (List Char)) (i : Nat) : Option (List Char) :=
  if 7 ≤ fs.length then fs[fs.length - 7 + i]? else fs[i]?

/-- Read the one-line station header (tmy3.py lines 156-163): plain comma
split, no field-count check, no numeric validation; pandas only fails on a
completely empty input (`EmptyDataError`). -/
def read_header (line : List Char) : Except PyExc StationInfo :=
  if line = [] then .error .emptyData
  else
    let fs := pySplit ',' line
    .ok ⟨headerField fs 0, headerField fs 1, headerField fs 2, headerField fs 3,
         headerField fs 4, headerField fs 5, headerField fs 6⟩

/-- The column-to-attribute mapping of tmy3.py lines 247-275, in source
order; the value is the attribute name installed by `setattr`. Note the
source's trailing space in the attribute name for the zenith-luminance
column. -/
def shortNameMap : List (String × String) :=
  [("DateTime", "datetime"),
   ("Date (MM/DD/YYYY)", "date"),
   ("Time (HH:MM)", "hour"),
   ("ETR (W/m^2)", "etr"),
   ("ETRN (W/m^2)", "etrn"),
   ("GHI (W/m^2)", "ghi"),
   ("DNI (W/m^2)", "dni"),
   ("DHI (W/m^2)", "dhi"),
   ("GH illum (lx)", "ghillum"),
   ("DN illum (lx)", "dnillum"),
   ("DH illum (lx)", "dhillum"),
   ("Zenith lum (cd/m^2)", "zenlu "),
   ("TotCld (tenths)", "totcld"),
   ("OpqCld (tenths)", "opqcld"),
   ("Dry-bulb (C)", "drybulb"),
   ("Dew-point (C)", "dewpoint"),
   ("RHum (%)", "rhum"),
   ("Pressure (mbar)", "pressure"),
   ("Wdir (degrees)", "wdir"),
   ("Wspd (m/s)", "wspd"),
   ("Hvis (m)", "hvis"),
   ("CeilHgt (m)", "ceilhgt"),
   ("Pwat (cm)", "pwat"),
   ("AOD (unitless)", "aod"),
   ("Alb (unitless)", "alb"),
   ("Lprecip depth (mm)", "lprecipdepth"),
   ("Lprecip quantity (hr)", "lprecipquantity")]

/-- The attribute names exposed as per-row series on a loaded `TMY3`. -/
def exposedShortNames : List String :=
  shortNameMap.map Prod.snd

/-- The `self.units` dict literal of tmy3.py lines 277-303, in source order.
The source writes the key `"ghillum"` twice and never writes `"dhillum"`. -/
def unitsEntries : List (String × String) :=
  [("etr", "W/m^2"),
   ("etrn", "W/m^2"),
   ("ghi", "W/m^2"),
   ("dni", "W/m^2"),
   ("dhi", "W/m^2"),
   ("ghillum", "lx"),
   ("ghillum", "lx"),
   ("dnillum", "lx"),
   ("zenlu", "cd/m^2 "),
   ("totcld", "0.1unit"),
   ("opqcld", "0.1unit"),
   ("drybulb", "degC"),
   ("dewpoint", "degC"),
   ("rhum", "%"),
   ("pressure", "mbar"),
   ("wdir", "deg"),
   ("wspd", "m/s"),
   ("hvis", "m"),
   ("ceilhgt", "m"),
   ("pwat", "cm"),
   ("aod", "unit"),
   ("alb", "unit"),
   ("lprecipdepth", "mm"),
   ("lprecipquantity", "hr")]

/-- Lookup in a Python dict built from a literal: a later binding of the
same key overwrites an earlier one. -/
def unitsLookup (k : String) : Option String :=
  (unitsEntries.reverse.find? (fun p => p.1 == k)).map Prod.snd

/-- tmy3.py line 8: `config_dir = f"{os.getenv('HOME')}/.gridlabd-weather"`. -/
def config_dir (home : String) : String :=
  home ++ "/.gridlabd-weather"

/-- tmy3.py line 9: `cache_dir = f"{config_dir}/data"`. -/
def cache_dir (home : String) : String :=
  config_dir home ++ "/data"

/-- A configuration value (the JSON object is a flat string-to-string
dict in this module). -/
def ConfigDict : Type := List (String × String)

/-- The fallback dict built in the module-level `except` branch
(tmy3.py lines 44-51). -/
def defaultConfig : ConfigDict :=
  [("server", "https://github.com/"),
   ("organization", "slacgismo"),
   ("repository", "gridlabd-weather"),
   ("branch", "master"),
   ("country", "US"),
   ("index_name", ".index")]

/-- Python name lookup in an environment listing the bound names (values
as strings, which is all this module's lookups need). -/
def lookupVar (env : List (String × String)) (n : String) : Option String :=
  (env.find? (fun p => p.1 == n)).map Prod.snd

/-- The local scope of `load_config`'s body: the sole parameter binding
`pathname` (tmy3.py line 11). No local named `filename` exists. -/
def load_config_local_env (pathname : String) : List (String × String) :=
  [("pathname", pathname)]

/-- The module-level globals defined when `load_config()` runs during the
bootstrap (tmy3.py lines 1-41): the six imports and the four earlier
top-level assignments/defs. No global named `filename` exists. -/
def tmy3_module_global_env (home : String) : List (String × String) :=
  [("os", "<module>"),
   ("sys", "<module>"),
   ("json", "<module>"),
   ("pandas", "<module>"),
   ("datetime", "<module>"),
   ("requests", "<module>"),
   ("config_dir", config_dir home),
   ("cache_dir", cache_dir home),
   ("load_config", "<function>"),
   ("save_config", "<function>")]

/-- `load_config` (tmy3.py lines 11-25). The body evaluates the name
`filename` (line 22) although the parameter is named `pathname`; name
resolution searches the local then the global scope. Only if the name
resolved would the file be opened (`fsys`), read, and JSON-parsed
(`jsonParse`). -/
def load_config (fsys : String → Option String) (jsonParse : String → Option ConfigDict)
    (home : String) (pathname : String) : Except PyExc ConfigDict :=
  match lookupVar (load_config_local_env pathname ++ tmy3_module_global_env home) "filename" with
  | some fn =>
      match fsys fn with
      | none => .error (.oserror 2 "No such file or directory" fn)
      | some content =>
          match jsonParse content with
          | some cfg => .ok cfg
          | none => .error .valueError
  | none => .error (.nameError "filename")

/-- The module-level bootstrap (tmy3.py lines 41-52): `try: load_config()`
with the default pathname, `except:` build `defaultConfig` and
`save_config()` it. Returns the resulting global `config` and whether the
config file was (re)written. -/
def bootstrap_config (fsys : String → Option String)
    (jsonParse : String → Option ConfigDict) (home : String) : ConfigDict × Bool :=
  match load_config fsys jsonParse home (config_dir home ++ "/config.json") with
  | .ok cfg => (cfg, false)
  | .error _ => (defaultConfig, true)

/-- `cfg[key]` on the configuration dict (all keys present in practice;
absent keys yield `""` rather than modelling `KeyError`, which no claim
exercises). -/
def cfgGet (cfg : ConfigDict) (k : String) : String :=
  ((cfg.find? (fun p => p.1 == k)).map Prod.snd).getD ""

/-- The URL built at tmy3.py line 101:
`f"{server}{organization}/{repository}/raw/{branch}/{country}/{filename}"`. -/
def tmy3_url (cfg : ConfigDict) (filename : String) : String :=
  cfgGet cfg "server" ++ cfgGet cfg "organization" ++ "/" ++ cfgGet cfg "repository" ++
    "/raw/" ++ cfgGet cfg "branch" ++ "/" ++ cfgGet cfg "country" ++ "/" ++ filename

/-- The observable state `get_data` touches: the cache directory (filename
to file contents; newest entry first) and a count of network requests
issued (each `requests.get` increments it). -/
structure CacheWorld where
  cache : List (String × String)
  fetchCount : Nat
deriving DecidableEq, Repr

/-- `os.path.exists` plus `open(...).read()` on the cache directory. -/
def cacheLookup (cache : List (String × String)) (filename : String) : Option String :=
  (cache.find? (fun p => p.1 == filename)).map Prod.snd

/-- What `get_data` returns: the cache-file path (`cache_filename_only`) or
the file contents. -/
inductive GetDataResult where
  | path (p : String)
  | contents (s : String)
deriving DecidableEq, Repr

/-- `get_data` (tmy3.py lines 82-110). On a cache hit the cached file is
used with no network access. On a miss a single GET is issued (`remote`
maps a URL to the body of a 200 response, `none` for any other status);
a 200 body is written to the cache and returned, anything else raises
`OSError(2, "file not found", cache_file)` and writes nothing. -/
def get_data (cfg : ConfigDict) (home : String) (remote : String → Option String)
    (filename : String) (cache_filename_only : Bool) (w : CacheWorld) :
    Except PyExc GetDataResult × CacheWorld :=
  let cache_file := cache_dir home ++ "/" ++ filename
  match cacheLookup w.cache filename with
  | some content =>
      if cache_filename_only then (.ok (.path cache_file), w)
      else (.ok (.contents content), w)
  | none =>
      let w1 : CacheWorld := ⟨w.cache, w.fetchCount + 1⟩
      match remote (tmy3_url cfg filename) with
      | some text =>
          let w2 : CacheWorld := ⟨(filename, text) :: w1.cache, w1.fetchCount⟩
          if cache_filename_only then (.ok (.path cache_file), w2)
          else (.ok (.contents text), w2)
      | none => (.error (.oserror 2 "file not found" cache_file), w1)

/-- `get_index` (tmy3.py lines 57-64):
`sorted(get_data(config['index_name']).strip().split('\n'))`, given the
index file contents. -/
def get_index (content : String) : List String :=
  List.insertionSort (fun a b => a ≤ b)
    ((pySplit '\n' (pyStrip content.data)).map List.asString)

/-- The station-header record produced for a nonempty header line. -/
def headerInfo (line : List Char) : StationInfo :=
  ⟨headerField (pySplit ',' line) 0, headerField (pySplit ',' line) 1,
   headerField (pySplit ',' line) 2, headerField (pySplit ',' line) 3,
   headerField (pySplit ',' line) 4, headerField (pySplit ',' line) 5,
   headerField (pySplit ',' line) 6⟩

/-- `read_header` on a nonempty line always succeeds, returning the raw
fields. -/
theorem read_header_ok (line : List Char) (hne : line ≠ []) :
    read_header line = .ok (headerInfo line) := by
  simp [read_header, hne, headerInfo]

set_option maxRecDepth 2000 in
/-- Claim C3, code-bug evidence: `dhillum` is exposed as an observation-row
series (tmy3.py line 258) and the class docstring documents it as a float
property with unit lx, but the units dict literal never binds `dhillum` —
the key `ghillum` is written twice instead (lines 283-284) — so the unit
lookup for `dhillum` fails while, e.g., `drybulb` correctly maps to
`degC`. -/
theorem claim3_units_dhillum_missing :
    "dhillum" ∈ exposedShortNames ∧ unitsLookup "dhillum" = none ∧
      unitsLookup "drybulb" = some "degC" := by
  decide

/-- Claim C4: when a coerced year `Y` (nonzero, hence truthy, with the
month/day valid in `Y`) is supplied, the decoded date keeps the cell's
month and day and takes year `Y`; with no coerced year the cell's own year
is kept. -/
theorem claim4_year_coercion (cell : List Char) (Y y m d : Nat)
    (hp : parseDateCell cell = some ⟨y, m, d⟩) (hY : Y ≠ 0)
    (hv : validDate Y m d = true) :
    get_date (some Y) cell = some ⟨Y, m, d⟩ ∧ get_date none cell = some ⟨y, m, d⟩ := by
  simp [get_date, hp, dateReplaceYear, hY, hv]

/-- Claim C4, witnessed at the December 31 boundary cell. -/
theorem claim4_witness :
    get_date (some 2020) "12/31/1988".data = some ⟨2020, 12, 31⟩ ∧
      get_date none "12/31/1988".data = some ⟨1988, 12, 31⟩ :=
  claim4_year_coercion "12/31/1988".data 2020 1988 12 31 (by decide) (by decide) (by decide)

/-- Claim C5: a cache hit returns the cached bytes with no state change and
no network access; and after any successful call, an immediately repeated
call for the same logical name is a pure cache hit returning identical
bytes with no further fetch, so two calls perform at most one fetch. -/
theorem claim5_cache_idempotent (cfg : ConfigDict) (home : String)
    (remote : String → Option String) (filename t : String) (w w' : CacheWorld) :
    (cacheLookup w.cache filename = some t →
      get_data cfg home remote filename false w = (.ok (.contents t), w)) ∧
    (get_data cfg home remote filename false w = (.ok (.contents t), w') →
      get_data cfg home remote filename false w' = (.ok (.contents t), w') ∧
      w'.fetchCount ≤ w.fetchCount + 1) := by
  constructor
  · intro hc
    simp [get_data, hc]
  · intro h
    cases hc : cacheLookup w.cache filename with
    | some c =>
        simp [get_data, hc] at h
        obtain ⟨h1, h2⟩ := h
        subst h2
        simp [get_data, hc, h1]
    | none =>
        cases hr : remote (tmy3_url cfg filename) with
        | some text =>
            simp [get_data, hc, hr] at h
            obtain ⟨h1, h2⟩ := h
            subst h2
            subst h1
            constructor
            · simp [get_data, cacheLookup, List.find?]
            · simp
        | none =>
            simp [get_data, hc, hr] at h

/-- Claim C5, witnessed at concrete worlds: a hit on a warm cache, and a
miss-then-hit pair performing exactly one fetch and returning identical
bytes. -/
theorem claim5_witness :
    (get_data defaultConfig "/home/u" (fun _ => some "DATA") "a.tmy3" false
        ⟨[("a.tmy3", "HIT")], 5⟩ = (.ok (.contents "HIT"), ⟨[("a.tmy3", "HIT")], 5⟩)) ∧
    (get_data defaultConfig "/home/u" (fun _ => some "DATA") "b.tmy3" false
        ⟨[], 0⟩ = (.ok (.contents "DATA"), ⟨[("b.tmy3", "DATA")], 1⟩)) ∧
    (get_data defaultConfig "/home/u" (fun _ => some "DATA") "b.tmy3" false
        ⟨[("b.tmy3", "DATA")], 1⟩ = (.ok (.contents "DATA"), ⟨[("b.tmy3", "DATA")], 1⟩) ∧
      (⟨[("b.tmy3", "DATA")], 1⟩ : CacheWorld).fetchCount ≤
        (⟨[], 0⟩ : CacheWorld).fetchCount + 1) :=
  ⟨(claim5_cache_idempotent defaultConfig "/home/u" (fun _ => some "DATA") "a.tmy3" "HIT"
      ⟨[("a.tmy3", "HIT")], 5⟩ ⟨[("a.tmy3", "HIT")], 5⟩).1 (by decide),
   by rfl,
   (claim5_cache_idempotent defaultConfig "/home/u" (fun _ => some "DATA") "b.tmy3" "DATA"
      ⟨[], 0⟩ ⟨[("b.tmy3", "DATA")], 1⟩).2 (by rfl)⟩

/-- Claim C6: on a cache miss whose remote fetch does not return status
200, `get_data` raises `OSError(2, "file not found", cache_file)` carrying
the attempted cache path, and the cache directory is unchanged (only the
request counter moves). -/
theorem claim6_fetch_failure (cfg : ConfigDict) (home : String)
    (remote : String → Option String) (filename : String) (w : CacheWorld)
    (hmiss : cacheLookup w.cache filename = none)
    (hfail : remote (tmy3_url cfg filename) = none) :
    get_data cfg home remote filename false w =
      (.error (.oserror 2 "file not found" (cache_dir home ++ "/" ++ filename)),
        ⟨w.cache, w.fetchCount + 1⟩) := by
  simp [get_data, hmiss, hfail]

/-- Claim C6, witnessed at a concrete empty cache and failing remote. -/
theorem claim6_witness :
    get_data defaultConfig "/home/u" (fun _ => none) "c.tmy3" false ⟨[], 7⟩ =
      (.error (.oserror 2 "file not found" (cache_dir "/home/u" ++ "/" ++ "c.tmy3")),
        ⟨[], 8⟩) := by
  have h := claim6_fetch_failure defaultConfig "/home/u" (fun _ => none) "c.tmy3"
    ⟨[], 7⟩ (by decide) rfl
  simpa using h

set_option maxRecDepth 2000 in
/-- Claim C7, refuted at a concrete input: a 7-field header line whose
UTC-offset, latitude, longitude and elevation fields are not numbers is
accepted — the fields are stored as raw text and no MalformedHeader (or
any other) error is raised. -/
theorem claim7_counterexample :
    read_header "725990,Adak,AK,xyz,abc,def,ghi".data =
      .ok ⟨some "725990".data, some "Adak".data, some "AK".data, some "xyz".data,
           some "abc".data, some "def".data, some "ghi".data⟩ := by
  rfl

/-- Claim C7, amended: the station-header read performs no validation at
all — every nonempty first line parses successfully (pandas only infers
dtypes; a wrong field count pads with missing values or shifts surplus
fields into the index, and non-numeric fields are kept as text). -/
theorem claim7_amended (line : List Char) (hne : line ≠ []) :
    ∃ info, read_header line = .ok info :=
  ⟨headerInfo line, read_header_ok line hne⟩

/-- Claim C7 amended, witnessed at a one-character line. -/
theorem claim7_amended_witness : ∃ info, read_header "x".data = .ok info :=
  claim7_amended "x".data (by decide)

/-- Stripping is unaffected by one trailing newline: `str.strip()` removes
it from the right end. -/
theorem pyStrip_newline (l : List Char) : pyStrip (l ++ ['\n']) = pyStrip l := by
  unfold pyStrip pyStripRight
  rw [List.reverse_append]
  simp [List.dropWhile_cons, isPySpace]

/-- Claim C8, refuted at a concrete input: empty index contents produce the
single-element list containing the empty string — Python's
`"".split('\n')` is `['']`, and `strip()` does not help — so empty content
does yield a spurious empty entry. -/
theorem claim8_counterexample : get_index "" = [""] ∧ "" ∈ get_index "" := by
  constructor
  · rfl
  · rw [show get_index "" = [""] from rfl]
    exact List.mem_singleton.mpr rfl

/-- Claim C8, amended: the returned list is always lexicographically
sorted, and a present or missing trailing newline makes no difference (no
spurious empty entry arises from it); but empty contents yield `[""]`. -/
theorem claim8_amended (c : String) :
    List.Sorted (fun a b : String => a ≤ b) (get_index c) ∧
      get_index (c ++ "\n") = get_index c := by
  constructor
  · exact List.sorted_insertionSort _ _
  · unfold get_index
    rw [show (c ++ "\n").data = c.data ++ ['\n'] from by rw [String.data_append]]
    rw [pyStrip_newline]

/-- Claim C9: a time cell whose text before the first colon is a decimal
hour-ending label `n` in 1..24 decodes to hour `n - 1` with minute 0 (the
written minutes are discarded); `get_time` never sees the coerced year. -/
theorem claim9_hour_shift (cell hs : List Char) (rest : List (List Char)) (n : Nat)
    (hsplit : pySplit ':' cell = hs :: rest) (hparse : parseNat? hs = some n)
    (h1 : 1 ≤ n) (h24 : n ≤ 24) :
    get_time cell = some ⟨n - 1, 0⟩ := by
  simp [get_time, hsplit, hparse, h1, h24]

/-- Claim C9, witnessed at the hour-ending label 24. -/
theorem claim9_witness : get_time "24:00".data = some ⟨23, 0⟩ :=
  claim9_hour_shift "24:00".data "24".data ["00".data] 24 (by decide) (by decide)
    (by decide) (by decide)

/-- Claim C10: the body of `load_config` evaluates the undefined name
`filename` (its parameter is `pathname`), so every call raises `NameError`
before touching any file — for every filesystem, JSON parser, home and
pathname — and the module bootstrap therefore always falls back to the
default configuration and rewrites the config file, even when a valid
saved configuration exists. -/
theorem claim10_load_config_unbound (fsys : String → Option String)
    (jsonParse : String → Option ConfigDict) (home pathname : String) :
    load_config fsys jsonParse home pathname = .error (.nameError "filename") ∧
    bootstrap_config fsys jsonParse home = (defaultConfig, true) :=
  ⟨rfl, rfl⟩
